import Mathlib

/-!
Shallow embedding of `src/main.py` (job-search automation pipeline).

The pipeline has four stages, embedded here as executable Lean functions:
* `get_search_queries` — query generation with fallback (main.py 89-128);
* `run_scraper` — per-query scraping loop with apply-link
  normalization (main.py 154-196);
* `filter_experience` — seniority title filter (main.py 130-152);
* `save_to_sheet` — sheet writer with connect retry, header
  initialization, dedup and append (main.py 60-87, 198-259).

External collaborators (PDF extraction, the Gemini model, Python eval,
the jobspy scraper, the gspread transport) are modelled as explicit
oracle parameters: each call site receives the outcome the collaborator
would have produced, and the embedding reproduces exactly the control
flow the Python code performs on those outcomes.  Pandas cells that may
be NaN are modelled as `Option String`; `astype(str)` turns a NaN cell
into the literal string "nan", which `cellToStr` reproduces.
-/

namespace JobSearch

/-- A scraped row before apply-link normalization: the columns of the
dataframe returned by `scrape_jobs` that the pipeline touches.  A `none`
cell is a pandas NaN/missing value. -/
structure RawJob where
  site : Option String
  title : Option String
  company : Option String
  location : Option String
  date_posted : Option String
  job_url : Option String
  job_url_direct : Option String
deriving DecidableEq, Repr

/-- A listing after apply-link normalization: the six columns
`save_to_sheet` selects (main.py 211) with the derived `apply_link`. -/
structure Job where
  site : Option String
  title : Option String
  company : Option String
  location : Option String
  date_posted : Option String
  apply_link : Option String
deriving DecidableEq, Repr

/- ----------------------------------------------------------------
   Experience filter (main.py 130-152, CONFIG["SENIOR_KEYWORDS"] 46-50)
   ---------------------------------------------------------------- -/

/-- Python `\s` whitespace class (ASCII): space, tab, newline, carriage
return, vertical tab, form feed. -/
def pyIsSpace (c : Char) : Bool :=
  c = ' ' || c = '\t' || c = '\n' || c = '\r' || c = '\x0b' || c = '\x0c'

/-- Python regex word character `\w` for ASCII text:
letters, digits, underscore.  Used for the `\b` boundary. -/
def isWordChar (c : Char) : Bool :=
  c.isAlpha || c.isDigit || c = '_'

/-- Case folding for `case=False` matching: compare on lowercased
characters. -/
def lowerChars (s : String) : List Char :=
  s.data.map Char.toLower

/-- The word `w` occurs at the head of `s` and is followed by a word
boundary (end of string or a non-word character): the right half of the
regex `\bw\b`. -/
def wordAt (w : List Char) (s : List Char) : Bool :=
  w.isPrefixOf s &&
    (match s.drop w.length with
     | [] => true
     | c :: _ => !isWordChar c)

/-- Scan `s` for an occurrence of `w` delimited by word boundaries.
`prevOk` records whether the character just before the current position
is a word boundary (true at the start of the string). -/
def containsWordAux (w : List Char) (prevOk : Bool) : List Char → Bool
  | [] => prevOk && wordAt w []
  | c :: rest => (prevOk && wordAt w (c :: rest)) || containsWordAux w (!isWordChar c) rest

/-- `re.search` of the pattern `\bw\b` in `s` (both already lowercased). -/
def containsWord (w : List Char) (s : List Char) : Bool :=
  containsWordAux w true s

/-- Match the regex tail `\s*years` at the head of `s`: skip whitespace,
then require the literal `years`. -/
def yearsTail : List Char → Bool
  | [] => false
  | c :: rest =>
    if pyIsSpace c then yearsTail rest
    else List.isPrefixOf "years".data (c :: rest)

/-- `re.search` of `d\+\s*years` in `s` for a fixed digit `d`
(the patterns `5\+\s*years` and `6\+\s*years` of the config):
an occurrence of the digit, then a literal `+`, then `\s*years`.
There is no word boundary, so e.g. "15+ years" matches `5\+\s*years`. -/
def yearsFrom (d : Char) : List Char → Bool
  | [] => false
  | c :: rest =>
    (c = d &&
      (match rest with
       | '+' :: rest2 => yearsTail rest2
       | _ => false)) || yearsFrom d rest

/-- The whole-word keywords of `CONFIG["SENIOR_KEYWORDS"]`
(main.py 46-50); the two `N\+\s*years` entries are handled by
`yearsFrom`. -/
def seniorWordList : List String :=
  ["senior", "lead", "manager", "principal", "architect",
   "head", "director", "vp"]

/-- `re.search` of the joined pattern
`\bsenior\b|\blead\b|\bmanager\b|\bprincipal\b|\barchitect\b|\bhead\b|\bdirector\b|\bvp\b|5\+\s*years|6\+\s*years`
with `case=False`: the title matches if any alternative matches on the
lowercased text. -/
def titleMatchesSenior (t : String) : Bool :=
  let s := lowerChars t
  seniorWordList.any (fun w => containsWord (lowerChars w) s)
    || yearsFrom '5' s || yearsFrom '6' s

/-- `df['title'].str.contains(pattern, case=False, na=False)` for one
row: a NaN title yields `false` (`na=False`), so the row is kept. -/
def jobTitleMatches (j : Job) : Bool :=
  match j.title with
  | none => false
  | some t => titleMatchesSenior t

/-- `filter_experience` (main.py 130-152): keep the rows whose title
does NOT match the senior pattern.  (The `df.empty` early return is the
identity on the empty list, so it needs no separate branch.) -/
def filter_experience (jobs : List Job) : List Job :=
  jobs.filter (fun j => !jobTitleMatches j)

/-- Spec-side predicate, used only to state claim C2 as written: the
claim's pattern family includes "N+ years" for EVERY N ≥ 5, i.e. a
maximal digit run with numeric value ≥ 5, then `+`, then `\s*years`. -/
def claimYearsAt : List Char → Bool
  | [] => false
  | c :: rest =>
    (let ds := (c :: rest).takeWhile Char.isDigit
     !ds.isEmpty &&
       decide (5 ≤ ds.foldl (fun n d => 10 * n + (d.toNat - 48)) 0) &&
       (match (c :: rest).dropWhile Char.isDigit with
        | '+' :: rest2 => yearsTail rest2
        | _ => false)) || claimYearsAt rest

/-- Spec-side title predicate of claim C2: the fixed whole words plus
"N+ years" for every N ≥ 5. -/
def claimTitleMatches (t : String) : Bool :=
  let s := lowerChars t
  seniorWordList.any (fun w => containsWord (lowerChars w) s)
    || claimYearsAt s

/- ----------------------------------------------------------------
   Listing collector (main.py 154-196)
   ---------------------------------------------------------------- -/

/-- What one `scrape_jobs` call produced: either it raised, or a
dataframe described by which of the two URL columns are present plus its
rows.  (A row's `job_url`/`job_url_direct` field is only meaningful when
the corresponding column flag is set.) -/
structure ScrapeResult where
  hasJobUrl : Bool
  hasJobUrlDirect : Bool
  rows : List RawJob
deriving DecidableEq, Repr

/-- Outcome of the external `scrape_jobs` call for one query. -/
inductive ScrapeOutcome
  | err
  | ok (res : ScrapeResult)
deriving DecidableEq, Repr

/-- `pd.Series.fillna` on one cell: a NaN direct link falls back to the
board link; a present value — even the empty string — is kept. -/
def fillna (d u : Option String) : Option String :=
  match d with
  | none => u
  | some s => some s

/-- Attach an `apply_link` to a raw row. -/
def withApplyLink (r : RawJob) (link : Option String) : Job :=
  ⟨r.site, r.title, r.company, r.location, r.date_posted, link⟩

/-- Apply-link normalization (main.py 180-184).
`jobs['job_url_direct']` is accessed on both branches, so a dataframe
without that column raises `KeyError` (modelled as `Except.error`).
With both columns, `apply_link = job_url_direct.fillna(job_url)`;
without a `job_url` column, `apply_link = job_url_direct` with no
fallback. -/
def normalizeLinks (res : ScrapeResult) : Except Unit (List Job) :=
  if res.hasJobUrlDirect = false then Except.error ()
  else if res.hasJobUrl then
    Except.ok (res.rows.map (fun r => withApplyLink r (fillna r.job_url_direct r.job_url)))
  else
    Except.ok (res.rows.map (fun r => withApplyLink r r.job_url_direct))

/-- Python `str.split` on a one-character separator: split at every
occurrence; an input without the separator yields one field. -/
def splitOnChar (sep : Char) : List Char → List (List Char)
  | [] => [[]]
  | c :: rest =>
    let r := splitOnChar sep rest
    if c = sep then [] :: r
    else
      match r with
      | g :: gs => (c :: g) :: gs
      | [] => [[c]]

/-- `role, loc = query.split("|")` (main.py 168): succeeds exactly when
the split yields two fields; any other arity raises `ValueError`. -/
def parseQuery (q : String) : Option (String × String) :=
  match (splitOnChar '|' q.data).map List.asString with
  | [a, b] => some (a, b)
  | _ => none

/-- The body of the per-query `try` block (main.py 167-187) for one
query paired with its external scrape outcome: `none` means some step
raised and the query is skipped; `some jobs` is the normalized rows
appended to `all_jobs`. -/
def scrapeOne (q : String × ScrapeOutcome) : Option (List Job) :=
  match parseQuery q.1 with
  | none => none
  | some _ =>
    match q.2 with
    | ScrapeOutcome.err => none
    | ScrapeOutcome.ok res => (normalizeLinks res).toOption

/-- The scraping loop: first component is `all_jobs` (the per-query
dataframes, in query order), second the queries whose iteration raised
(each is logged with `logger.warning`, main.py 190). -/
def collectAll : List (String × ScrapeOutcome) → List (List Job) × List String
  | [] => ([], [])
  | q :: rest =>
    let acc := collectAll rest
    match scrapeOne q with
    | none => (acc.1, q.1 :: acc.2)
    | some jobs => (jobs :: acc.1, acc.2)

/-- `run_scraper` (main.py 154-196): if `all_jobs` is empty return an
empty frame, otherwise concatenate (`pd.concat`, preserving query order
and within-query order) and apply the experience filter. -/
def run_scraper (queries : List (String × ScrapeOutcome)) : List Job :=
  match (collectAll queries).1 with
  | [] => []
  | ls => filter_experience ls.flatten

/- ----------------------------------------------------------------
   Query generator (main.py 89-128)
   ---------------------------------------------------------------- -/

/-- A Python runtime value, as far as this pipeline can observe the
result of `eval` on the model's reply: a list of strings, or anything
else (summarized by one non-list representative constructor each for
ints and arbitrary other values). -/
inductive PyVal
  | strList (xs : List String)
  | intVal (n : Int)
  | otherVal (descr : String)
deriving DecidableEq, Repr

/-- Is the value a Python list of strings? -/
def isStrList : PyVal → Bool
  | PyVal.strList _ => true
  | _ => false

/-- Oracles for the three external effects of `get_search_queries`:
PDF text extraction, the Gemini call (fed the built prompt), and Python
`eval` of the cleaned reply text.  `Except.error` means the call
raised. -/
structure GenEnv where
  resumeText : Except Unit String
  modelReply : String → Except Unit String
  pyEval : String → Except Unit PyVal

/-- The fallback list returned on any generation failure
(main.py 122-128). -/
def fallbackQueries : List String :=
  ["Generative AI Engineer | India",
   "Data Scientist | India",
   "Python Developer | India",
   "Computer Vision Engineer | India",
   "Software Engineer Fresher | India"]

/-- The prompt (main.py 103-109): fixed instruction text followed by the
first 3000 characters of the résumé text. -/
def buildPrompt (text : String) : String :=
  "Analyze this resume and generate a python list of 5 search queries "
    ++ "for LinkedIn/Indeed. Focus on skills: Generative AI, Data Science, "
    ++ "Python, Computer Vision, Deep Learning. Location: India (Remote or "
    ++ "On-site). Format: [\"Role | Location\", \"Role | Location\"] "
    ++ "Resume context: " ++ (text.take 3000)

/-- Python `str.replace` on character lists: replace all
non-overlapping occurrences of `pat` (nonempty at every use site) left
to right.  The fuel argument — instantiated with the input length,
which one step per character always suffices for — keeps the recursion
structural. -/
def replaceAllFuel (pat rep : List Char) : Nat → List Char → List Char
  | 0, s => s
  | _ + 1, [] => []
  | fuel + 1, c :: rest =>
    if !pat.isEmpty && pat.isPrefixOf (c :: rest) then
      rep ++ replaceAllFuel pat rep fuel ((c :: rest).drop pat.length)
    else
      c :: replaceAllFuel pat rep fuel rest

/-- Python `str.replace`. -/
def replaceAll (pat rep s : List Char) : List Char :=
  replaceAllFuel pat rep s.length s

/-- Python `str.strip()`: drop whitespace from both ends. -/
def pyStrip (s : List Char) : List Char :=
  ((s.dropWhile pyIsSpace).reverse.dropWhile pyIsSpace).reverse

/-- `response.text.replace("```python", "").replace("```", "").strip()`
(main.py 117). -/
def stripFences (s : String) : String :=
  ⟨pyStrip (replaceAll "```".data [] (replaceAll "```python".data [] s.data))⟩

/-- `get_search_queries` (main.py 89-128): the whole body is one `try`;
any raising collaborator lands in the `except` branch which returns the
fallback list.  On success the function returns whatever value `eval`
produced — there is no check that it is a list of strings. -/
def get_search_queries (env : GenEnv) : PyVal :=
  match env.resumeText with
  | Except.error _ => PyVal.strList fallbackQueries
  | Except.ok text =>
    match env.modelReply (buildPrompt text) with
    | Except.error _ => PyVal.strList fallbackQueries
    | Except.ok resp =>
      match env.pyEval (stripFences resp) with
      | Except.error _ => PyVal.strList fallbackQueries
      | Except.ok v => v

/- ----------------------------------------------------------------
   Sheet writer (main.py 60-87 and 198-259)
   ---------------------------------------------------------------- -/

/-- Which sheet-API calls succeed in one `save_to_sheet` invocation.
`connOk i` is the outcome of the i-th connect-and-open attempt
(`_get_sheet_client`'s loop body); the remaining flags are the outcomes
of `get_all_values`, the header `append_row`, the header bold/freeze
formatting, the bulk `append_rows`, and the checkbox block (its
`get_all_values` plus `set_data_validation`), in source order.
`formattingAvailable` is the module-level `FORMATTING_AVAILABLE`. -/
structure SheetEnv where
  connOk : Nat → Bool
  readOk : Bool
  headerWriteOk : Bool
  formattingAvailable : Bool
  headerFormatOk : Bool
  appendOk : Bool
  checkboxOk : Bool

/-- The terminal outcome of one `save_to_sheet` invocation, classified
by the code path taken: `Skipped` = empty-input early return,
`ConnectFailed` = `_get_sheet_client` returned `None`, `ReadFailed` =
the first `try` block (read / header init / header formatting) raised,
`Deduplicated` = every incoming row was dropped against the lookup set,
`WriteFailed` = `append_rows` raised, `Written n` = `append_rows`
succeeded for `n` rows (the "Successfully appended n" log line fired;
a later checkbox failure lands in the same `except` handler but the
appended rows and the success log stand — see
`SaveResult.appendErrorLogged`). -/
inductive SaveOutcome
  | Skipped
  | ConnectFailed
  | ReadFailed
  | Deduplicated
  | WriteFailed
  | Written (n : Nat)
deriving DecidableEq, Repr

/-- Sheet-API operations, recorded for observability.  `setCheckbox`
stands for the whole checkbox block (second `get_all_values` plus
`set_data_validation`). -/
inductive SheetOp
  | connectAttempt
  | sleep (secs : Nat)
  | readAll
  | appendRow (r : List String)
  | appendRows (rs : List (List String))
  | formatHeader
  | setCheckbox
deriving DecidableEq, Repr

/-- Result of one `save_to_sheet` invocation: the outcome, the sheet
contents afterwards, the attempted sheet operations (paired with
whether each succeeded), and whether the `"Failed to append data"`
error line was logged (the second `except` handler, which catches both
an `append_rows` failure and a checkbox failure). -/
structure SaveResult where
  outcome : SaveOutcome
  sheet : List (List String)
  ops : List (SheetOp × Bool)
  appendErrorLogged : Bool
deriving DecidableEq, Repr

/-- `df.astype(str)` on one cell: pandas renders a NaN cell as the
string "nan". -/
def cellToStr : Option String → String
  | none => "nan"
  | some s => s

/-- The header row written on initialization (main.py 228):
`cols + ['Applied?']`. -/
def headerRow : List String :=
  ["site", "title", "company", "location", "date_posted", "apply_link", "Applied?"]

/-- One listing as the sheet row `df[cols].astype(str)` produces, in
the fixed column order of `cols` (main.py 211); `apply_link` sits at
index 5. -/
def jobRow (j : Job) : List String :=
  [cellToStr j.site, cellToStr j.title, cellToStr j.company,
   cellToStr j.location, cellToStr j.date_posted, cellToStr j.apply_link]

/-- The row actually appended: the six columns plus
`df['Applied?'] = "FALSE"` (main.py 240). -/
def appendedRow (j : Job) : List String :=
  jobRow j ++ ["FALSE"]

/-- `row[5] for row in existing_data[1:] if len(row) > 5` for one row:
the apply-link cell of a sufficiently long row. -/
def linkOfRow (r : List String) : Option String :=
  if 5 < r.length then r.get? 5 else none

/-- The dedup lookup set (main.py 220): the value at index 5 of every
row after the header that has more than 5 cells. -/
def existingLinks (rows : List (List String)) : List String :=
  (rows.drop 1).filterMap linkOfRow

/-- The rows surviving the duplicate check (main.py 221):
`df[~df['apply_link'].isin(existing_links)]`. -/
def dedupKept (sheet : List (List String)) (jobs : List Job) : List Job :=
  jobs.filter (fun j => !((existingLinks sheet).contains (cellToStr j.apply_link)))

/-- `_get_sheet_client`'s retry loop (main.py 65-87), by remaining
fuel: a successful attempt returns immediately; a failed attempt sleeps
5 seconds unless it was the last, in which case the function returns
`None`.  First component: whether a client was obtained. -/
def connectLoop (connOk : Nat → Bool) (attempt : Nat) : Nat → Bool × List (SheetOp × Bool)
  | 0 => (false, [])
  | fuel + 1 =>
    if connOk attempt then (true, [(SheetOp.connectAttempt, true)])
    else if fuel = 0 then (false, [(SheetOp.connectAttempt, false)])
    else
      let acc := connectLoop connOk (attempt + 1) fuel
      (acc.1, (SheetOp.connectAttempt, false) :: (SheetOp.sleep 5, true) :: acc.2)

/-- `_get_sheet_client` (main.py 60-87) with `max_retries = 3`. -/
def get_sheet_client (connOk : Nat → Bool) : Bool × List (SheetOp × Bool) :=
  connectLoop connOk 0 3

/-- The second `try` block (main.py 239-259): bulk-append the surviving
rows; on success log the count and, when formatting is available, apply
the checkbox validation rule to the new row range.  Both a failing
`append_rows` and a failing checkbox block land in the same `except`
handler (main.py 258-259), which only logs — appended rows are never
rolled back. -/
def appendPhase (env : SheetEnv) (sheet : List (List String)) (kept : List Job)
    (ops : List (SheetOp × Bool)) : SaveResult :=
  let rows := kept.map appendedRow
  if env.appendOk = false then
    ⟨SaveOutcome.WriteFailed, sheet, ops ++ [(SheetOp.appendRows rows, false)], true⟩
  else if env.formattingAvailable then
    if env.checkboxOk then
      ⟨SaveOutcome.Written kept.length, sheet ++ rows,
        ops ++ [(SheetOp.appendRows rows, true), (SheetOp.setCheckbox, true)], false⟩
    else
      ⟨SaveOutcome.Written kept.length, sheet ++ rows,
        ops ++ [(SheetOp.appendRows rows, true), (SheetOp.setCheckbox, false)], true⟩
  else
    ⟨SaveOutcome.Written kept.length, sheet ++ rows,
      ops ++ [(SheetOp.appendRows rows, true)], false⟩

/-- The header-initialization branch (main.py 227-233), taken when the
sheet has at most one row: append the header row and, when formatting is
available, bold and freeze it.  Any raise here is caught by the first
`except` handler ("Error reading existing data", main.py 235-237). -/
def headerPhase (env : SheetEnv) (sheet : List (List String)) (jobs : List Job)
    (ops : List (SheetOp × Bool)) : SaveResult :=
  if env.headerWriteOk = false then
    ⟨SaveOutcome.ReadFailed, sheet, ops ++ [(SheetOp.appendRow headerRow, false)], false⟩
  else if env.formattingAvailable then
    if env.headerFormatOk then
      appendPhase env (sheet ++ [headerRow]) jobs
        (ops ++ [(SheetOp.appendRow headerRow, true), (SheetOp.formatHeader, true)])
    else
      ⟨SaveOutcome.ReadFailed, sheet ++ [headerRow],
        ops ++ [(SheetOp.appendRow headerRow, true), (SheetOp.formatHeader, false)], false⟩
  else
    appendPhase env (sheet ++ [headerRow]) jobs
      (ops ++ [(SheetOp.appendRow headerRow, true)])

/-- The first `try` block after a successful `get_all_values`
(main.py 218-233): with more than one existing row, dedup against the
lookup set and return early if nothing survives; otherwise initialize
the header.  Note the header branch performs no dedup. -/
def afterRead (env : SheetEnv) (sheet : List (List String)) (jobs : List Job)
    (ops : List (SheetOp × Bool)) : SaveResult :=
  if 1 < sheet.length then
    if (dedupKept sheet jobs).isEmpty then
      ⟨SaveOutcome.Deduplicated, sheet, ops, false⟩
    else
      appendPhase env sheet (dedupKept sheet jobs) ops
  else
    headerPhase env sheet jobs ops

/-- `save_to_sheet` (main.py 198-259): empty input short-circuits
before any network call; a `None` client aborts; a failing
`get_all_values` aborts with the "Error reading existing data" log;
then dedup/header and append as above. -/
def save_to_sheet (env : SheetEnv) (sheet : List (List String)) (jobs : List Job) :
    SaveResult :=
  if jobs.isEmpty then ⟨SaveOutcome.Skipped, sheet, [], false⟩
  else
    let c := get_sheet_client env.connOk
    if c.1 = false then ⟨SaveOutcome.ConnectFailed, sheet, c.2, false⟩
    else if env.readOk = false then
      ⟨SaveOutcome.ReadFailed, sheet, c.2 ++ [(SheetOp.readAll, false)], false⟩
    else
      afterRead env sheet jobs (c.2 ++ [(SheetOp.readAll, true)])

/-- Count the connect attempts among the recorded operations. -/
def countConnects (ops : List (SheetOp × Bool)) : Nat :=
  (ops.filter (fun p => p.1 = SheetOp.connectAttempt)).length

/-- Does the operation list contain a read? -/
def hasReadOp (ops : List (SheetOp × Bool)) : Bool :=
  ops.any (fun p => p.1 = SheetOp.readAll)

/-- Does the operation list contain any append (header or data rows)? -/
def hasAppendOp (ops : List (SheetOp × Bool)) : Bool :=
  ops.any (fun p =>
    match p.1 with
    | SheetOp.appendRow _ => true
    | SheetOp.appendRows _ => true
    | _ => false)

/-- Does the operation list contain a header append specifically? -/
def hasHeaderRowOp (ops : List (SheetOp × Bool)) : Bool :=
  ops.any (fun p =>
    match p.1 with
    | SheetOp.appendRow _ => true
    | _ => false)

/-- Replace only the checkbox-step outcome of an environment. -/
def setCheckboxOk (env : SheetEnv) (b : Bool) : SheetEnv :=
  ⟨env.connOk, env.readOk, env.headerWriteOk, env.formattingAvailable,
   env.headerFormatOk, env.appendOk, b⟩

/-- The operations the append phase records after a successful
`append_rows`. -/
def appendOpsTail (env : SheetEnv) (kept : List Job) : List (SheetOp × Bool) :=
  if env.formattingAvailable then
    [(SheetOp.appendRows (kept.map appendedRow), true), (SheetOp.setCheckbox, env.checkboxOk)]
  else
    [(SheetOp.appendRows (kept.map appendedRow), true)]

/-- The operations the header-initialization branch records when it
succeeds. -/
def headerOpsTail (env : SheetEnv) : List (SheetOp × Bool) :=
  if env.formattingAvailable then
    [(SheetOp.appendRow headerRow, true), (SheetOp.formatHeader, true)]
  else
    [(SheetOp.appendRow headerRow, true)]

/-- All sheet operations a successful end-to-end run needs succeed
(formatting availability and the checkbox outcome are left free: they
never affect the outcome or the stored rows). -/
def envCoreOk (env : SheetEnv) : Prop :=
  env.connOk 0 = true ∧ env.readOk = true ∧ env.headerWriteOk = true ∧
    env.headerFormatOk = true ∧ env.appendOk = true

/-- Two sheet environments that agree everywhere except possibly on the
checkbox-step outcome. -/
def agreeExceptCheckbox (e1 e2 : SheetEnv) : Prop :=
  e1.connOk = e2.connOk ∧ e1.readOk = e2.readOk ∧
    e1.headerWriteOk = e2.headerWriteOk ∧
    e1.formattingAvailable = e2.formattingAvailable ∧
    e1.headerFormatOk = e2.headerFormatOk ∧ e1.appendOk = e2.appendOk

/- ----------------------------------------------------------------
   Concrete data for witnesses and counterexamples
   ---------------------------------------------------------------- -/

/-- A junior-titled listing with a concrete apply link. -/
def jobW : Job :=
  ⟨some "linkedin", some "Data Scientist", some "Acme", some "Remote, India",
   some "2026-02-03", some "https://jobs.example/1"⟩

/-- A listing asking for 7+ years — matched by the claim's general
"N+ years, N ≥ 5" family but by neither config pattern. -/
def job7 : Job :=
  ⟨some "indeed", some "ML Engineer (7+ years)", some "Beta", some "India",
   some "2026-02-02", some "https://jobs.example/7"⟩

/-- A listing whose title cell is NaN. -/
def jobNoTitle : Job :=
  ⟨some "indeed", none, some "Gamma", some "India",
   some "2026-02-02", some "https://jobs.example/n"⟩

/-- The four titles of the spec's worked filter example. -/
def jSenior : Job :=
  ⟨some "linkedin", some "Senior Data Scientist", some "A", some "India",
   some "2026-02-01", some "https://jobs.example/a"⟩

def jPlain : Job :=
  ⟨some "linkedin", some "Data Scientist", some "B", some "India",
   some "2026-02-01", some "https://jobs.example/b"⟩

def jManager : Job :=
  ⟨some "indeed", some "Engineering Manager", some "C", some "India",
   some "2026-02-01", some "https://jobs.example/c"⟩

def jFiveYears : Job :=
  ⟨some "indeed", some "ML Engineer (5+ years)", some "D", some "India",
   some "2026-02-01", some "https://jobs.example/d"⟩

def exampleJobs : List Job := [jSenior, jPlain, jManager, jFiveYears]

/-- Sheet environment where every external call succeeds and the
formatting library is absent. -/
def envW : SheetEnv := ⟨fun _ => true, true, true, false, true, true, true⟩

/-- Sheet environment where every connect attempt fails. -/
def envConnFail : SheetEnv := ⟨fun _ => false, true, true, false, true, true, true⟩

/-- Sheet environment where the connect attempt fails twice, then
succeeds; everything else succeeds. -/
def envRetry : SheetEnv := ⟨fun i => decide (i = 2), true, true, false, true, true, true⟩

/-- Formatting available but the checkbox step fails; append succeeds. -/
def envCbFail : SheetEnv := ⟨fun _ => true, true, true, true, true, true, false⟩

/-- Same as `envCbFail` with the checkbox step succeeding. -/
def envCbOk : SheetEnv := ⟨fun _ => true, true, true, true, true, true, true⟩

/-- A scraped row whose `job_url_direct` is the empty string (present,
not NaN) while `job_url` is a usable board link. -/
def c3raw : RawJob :=
  ⟨some "linkedin", some "Data Scientist", some "Acme", some "India",
   some "2026-02-01", some "https://board.example/y", some ""⟩

/-- A one-row scrape result carrying both URL columns. -/
def c3res : ScrapeResult := ⟨true, true, [c3raw]⟩

/-- A scraped row with a usable `job_url` and NaN `job_url_direct`. -/
def c10raw : RawJob :=
  ⟨some "linkedin", some "Data Scientist", some "Acme", some "India",
   some "2026-02-01", some "https://board.example/u", none⟩

/-- A scrape result that lacks the `job_url_direct` column although
every row has a usable `job_url`. -/
def c10resNoDirect : ScrapeResult := ⟨true, false, [c10raw]⟩

/-- A scraped row whose direct link is the empty string. -/
def c10rawEmptyDirect : RawJob :=
  ⟨some "indeed", some "Data Analyst", some "Beta", some "India",
   some "2026-02-01", none, some ""⟩

/-- A scrape result that lacks the `job_url` column. -/
def c10resNoUrl : ScrapeResult := ⟨false, true, [c10rawEmptyDirect]⟩

/-- Two queries that both fail: one scrape error, one malformed query
(no "|" separator). -/
def qsAllFail : List (String × ScrapeOutcome) :=
  [("Data Scientist | India", ScrapeOutcome.err),
   ("no separator here", ScrapeOutcome.ok ⟨true, true, [c10raw]⟩)]

/-- Query-generation environment where résumé extraction raises. -/
def genFailEnv : GenEnv :=
  ⟨Except.error (), fun _ => Except.error (), fun _ => Except.error ()⟩

/-- Query-generation environment modelling a model reply of "1+1":
extraction and the model call succeed, and `eval` behaves as CPython
does on the literal text "1+1" — it evaluates it as code and yields the
integer 2 (not a list of strings, and not an error). -/
def evalIntEnv : GenEnv :=
  ⟨Except.ok "resume text", fun _ => Except.ok "1+1",
   fun s => if s = "1+1" then Except.ok (PyVal.intVal 2) else Except.error ()⟩

/- ----------------------------------------------------------------
   Theorems
   ---------------------------------------------------------------- -/

/-- C2 counterexample: the claim asserts the filter removes titles
matching "N+ years" for EVERY N ≥ 5, but the config only has
`5\+\s*years` and `6\+\s*years`; a "7+ years" title matches the claim's
family yet is kept by `filter_experience`. -/
theorem C2_counterexample :
    claimTitleMatches "ML Engineer (7+ years)" = true ∧
    jobTitleMatches job7 = false ∧
    filter_experience [job7] = [job7] := by
  refine ⟨by decide, by decide, by decide⟩

/-- C2 (amended): `filter_experience` returns a sublist of its input in
the original order, keeps exactly the listings whose title does not
match the config pattern (whole words senior / lead / manager /
principal / architect / head / director / vp, plus the two literal
patterns `5+ years` and `6+ years` with optional whitespace, all
case-insensitive), keeps NaN titles, and sends the spec's worked
example to exactly the plain "Data Scientist" row. -/
theorem C2_filter_exact :
    (∀ jobs : List Job, (filter_experience jobs).Sublist jobs) ∧
    (∀ (jobs : List Job) (j : Job),
       j ∈ filter_experience jobs ↔ j ∈ jobs ∧ jobTitleMatches j = false) ∧
    (∀ j : Job, j.title = none → jobTitleMatches j = false) ∧
    filter_experience exampleJobs = [jPlain] := by
  refine ⟨fun jobs => List.filter_sublist jobs, fun jobs j => ?_, fun j h => ?_, by decide⟩
  · simp [filter_experience, List.mem_filter]
  · simp [jobTitleMatches, h]

/-- Witness for C2: the NaN-title conjunct applied at `jobNoTitle`, the
sublist conjunct at the worked example. -/
theorem C2_witness :
    jobTitleMatches jobNoTitle = false ∧
    (filter_experience exampleJobs).Sublist exampleJobs :=
  ⟨C2_filter_exact.2.2.1 jobNoTitle rfl, C2_filter_exact.1 exampleJobs⟩

/-- C3 counterexample: the claim says an empty (but present)
`job_url_direct` falls back to `job_url`; `fillna` only fills NaN, so
the empty string is kept and `apply_link` is "" rather than the board
link. -/
theorem C3_counterexample :
    normalizeLinks c3res = Except.ok [withApplyLink c3raw (some "")] ∧
    (some "" : Option String) ≠ some "https://board.example/y" := by
  refine ⟨rfl, by decide⟩

/-- C3 (amended): when both URL columns are present, `apply_link` is
`job_url_direct.fillna(job_url)`: a NaN direct link falls back to the
board link, while any present direct value — including the empty
string — is used as is. -/
theorem C3_apply_link (res : ScrapeResult)
    (h1 : res.hasJobUrl = true) (h2 : res.hasJobUrlDirect = true) :
    normalizeLinks res =
      Except.ok (res.rows.map (fun r => withApplyLink r (fillna r.job_url_direct r.job_url))) ∧
    (∀ u : Option String, fillna none u = u) ∧
    (∀ (s : String) (u : Option String), fillna (some s) u = some s) := by
  refine ⟨?_, fun u => rfl, fun s u => rfl⟩
  simp [normalizeLinks, h1, h2]

/-- Witness for C3 at the concrete one-row result. -/
theorem C3_witness :
    normalizeLinks c3res =
      Except.ok ([c3raw].map (fun r => withApplyLink r (fillna r.job_url_direct r.job_url))) :=
  (C3_apply_link c3res rfl rfl).1

/-- C10: a scrape result without the `job_url_direct` column makes the
normalization raise (`jobs['job_url_direct']` is accessed on both
branches), so the whole query is skipped as a per-query failure and
logged, even when every row has a usable `job_url`; and a result
without the `job_url` column takes `apply_link` from `job_url_direct`
alone, with no fallback. -/
theorem C10_column_dependence :
    (∀ res : ScrapeResult, res.hasJobUrlDirect = false →
       normalizeLinks res = Except.error ()) ∧
    (∀ (q : String) (res : ScrapeResult), res.hasJobUrlDirect = false →
       scrapeOne (q, ScrapeOutcome.ok res) = none) ∧
    (∀ (q : String) (res : ScrapeResult), res.hasJobUrlDirect = false →
       run_scraper [(q, ScrapeOutcome.ok res)] = [] ∧
       (collectAll [(q, ScrapeOutcome.ok res)]).2 = [q]) ∧
    (∀ res : ScrapeResult, res.hasJobUrlDirect = true → res.hasJobUrl = false →
       normalizeLinks res =
         Except.ok (res.rows.map (fun r => withApplyLink r r.job_url_direct))) := by
  have hnorm : ∀ res : ScrapeResult, res.hasJobUrlDirect = false →
      normalizeLinks res = Except.error () := by
    intro res h
    simp [normalizeLinks, h]
  have hone : ∀ (q : String) (res : ScrapeResult), res.hasJobUrlDirect = false →
      scrapeOne (q, ScrapeOutcome.ok res) = none := by
    intro q res h
    cases hp : parseQuery q with
    | none => simp [scrapeOne, hp]
    | some v => simp [scrapeOne, hp, hnorm res h, Except.toOption]
  refine ⟨hnorm, hone, ?_, ?_⟩
  · intro q res h
    constructor
    · simp [run_scraper, collectAll, hone q res h]
    · simp [collectAll, hone q res h]
  · intro res h1 h2
    simp [normalizeLinks, h1, h2]

/-- Witness for C10: the concrete results with a missing
`job_url_direct` column (row has a board link) and a missing `job_url`
column (empty direct link survives as the apply link). -/
theorem C10_witness :
    run_scraper [("Data Scientist | India", ScrapeOutcome.ok c10resNoDirect)] = [] ∧
    normalizeLinks c10resNoUrl =
      Except.ok ([c10rawEmptyDirect].map (fun r => withApplyLink r r.job_url_direct)) :=
  ⟨(C10_column_dependence.2.2.1 "Data Scientist | India" c10resNoDirect rfl).1,
   C10_column_dependence.2.2.2 c10resNoUrl rfl rfl⟩

/-- C6: any failure in résumé extraction, the model call, or response
evaluation is caught by the single `except` handler, which returns the
fixed fallback list of exactly 5 "Role | Location" strings; the
function is total (never raises). -/
theorem C6_generation_fallback :
    fallbackQueries.length = 5 ∧
    (∀ env : GenEnv, env.resumeText = Except.error () →
       get_search_queries env = PyVal.strList fallbackQueries) ∧
    (∀ (env : GenEnv) (text : String), env.resumeText = Except.ok text →
       env.modelReply (buildPrompt text) = Except.error () →
       get_search_queries env = PyVal.strList fallbackQueries) ∧
    (∀ (env : GenEnv) (text resp : String), env.resumeText = Except.ok text →
       env.modelReply (buildPrompt text) = Except.ok resp →
       env.pyEval (stripFences resp) = Except.error () →
       get_search_queries env = PyVal.strList fallbackQueries) := by
  refine ⟨rfl, ?_, ?_, ?_⟩
  · intro env h
    simp [get_search_queries, h]
  · intro env text h1 h2
    simp [get_search_queries, h1, h2]
  · intro env text resp h1 h2 h3
    simp [get_search_queries, h1, h2, h3]

/-- Witness for C6: extraction fails in `genFailEnv`. -/
theorem C6_witness :
    get_search_queries genFailEnv = PyVal.strList fallbackQueries :=
  C6_generation_fallback.2.1 genFailEnv rfl

/-- C7 counterexample: the code parses the model reply with `eval`, not
a strict list-of-strings parser.  With the reply "1+1" (not a literal
list of strings), CPython's `eval` yields the integer 2, and
`get_search_queries` returns that non-list value instead of treating it
as a generation failure. -/
theorem C7_counterexample :
    get_search_queries evalIntEnv = PyVal.intVal 2 ∧
    isStrList (get_search_queries evalIntEnv) = false ∧
    get_search_queries evalIntEnv ≠ PyVal.strList fallbackQueries := by
  refine ⟨by decide, by decide, by decide⟩

/-- C7 (amended): response handling strips code-fence markers and
evaluates the remaining text as Python code; whatever value the
evaluation produces — list of strings or not — is returned unchanged,
and only a raising evaluation (or an earlier failure) triggers the
fallback list. -/
theorem C7_eval_semantics :
    (∀ (env : GenEnv) (text resp : String) (v : PyVal),
       env.resumeText = Except.ok text →
       env.modelReply (buildPrompt text) = Except.ok resp →
       env.pyEval (stripFences resp) = Except.ok v →
       get_search_queries env = v) ∧
    (∀ (env : GenEnv) (text resp : String),
       env.resumeText = Except.ok text →
       env.modelReply (buildPrompt text) = Except.ok resp →
       env.pyEval (stripFences resp) = Except.error () →
       get_search_queries env = PyVal.strList fallbackQueries) := by
  constructor
  · intro env text resp v h1 h2 h3
    simp [get_search_queries, h1, h2, h3]
  · intro env text resp h1 h2 h3
    simp [get_search_queries, h1, h2, h3]

/-- Witness for C7: the first conjunct applied at `evalIntEnv`. -/
theorem C7_witness : get_search_queries evalIntEnv = PyVal.intVal 2 :=
  C7_eval_semantics.1 evalIntEnv "resume text" "1+1" (PyVal.intVal 2)
    rfl rfl rfl

/-- C8: per-query failure is isolated.  The loop's `all_jobs` is
exactly the successful queries' (normalized) per-query results in query
order; each failing query is recorded by a warning log and skipped;
`run_scraper` returns the experience-filtered concatenation of the
successful results; and when every query fails it returns the empty
frame instead of raising. -/
theorem C8_isolation :
    (∀ qs : List (String × ScrapeOutcome),
       (collectAll qs).1 = qs.filterMap scrapeOne) ∧
    (∀ qs : List (String × ScrapeOutcome),
       (collectAll qs).2 = (qs.filter (fun q => (scrapeOne q).isNone)).map Prod.fst) ∧
    (∀ qs : List (String × ScrapeOutcome),
       run_scraper qs = filter_experience (qs.filterMap scrapeOne).flatten) ∧
    (∀ qs : List (String × ScrapeOutcome),
       (∀ q ∈ qs, scrapeOne q = none) → run_scraper qs = []) := by
  have h1 : ∀ qs : List (String × ScrapeOutcome),
      (collectAll qs).1 = qs.filterMap scrapeOne := by
    intro qs
    induction qs with
    | nil => rfl
    | cons q rest ih =>
      simp only [collectAll, List.filterMap_cons]
      cases hq : scrapeOne q <;> simp [hq, ih]
  have h2 : ∀ qs : List (String × ScrapeOutcome),
      (collectAll qs).2 = (qs.filter (fun q => (scrapeOne q).isNone)).map Prod.fst := by
    intro qs
    induction qs with
    | nil => rfl
    | cons q rest ih =>
      simp only [collectAll, List.filter_cons]
      cases hq : scrapeOne q <;> simp [hq, ih]
  have h3 : ∀ qs : List (String × ScrapeOutcome),
      run_scraper qs = filter_experience (qs.filterMap scrapeOne).flatten := by
    intro qs
    unfold run_scraper
    rw [h1 qs]
    cases hq : qs.filterMap scrapeOne with
    | nil => rfl
    | cons l ls => rfl
  refine ⟨h1, h2, h3, fun qs h => ?_⟩
  rw [h3 qs, List.filterMap_eq_nil_iff.mpr h]
  rfl

/-- Witness for C8: both concrete queries fail (one scrape error, one
malformed query string), and the collector returns the empty result. -/
theorem C8_witness : run_scraper qsAllFail = [] :=
  C8_isolation.2.2.2 qsAllFail (by decide)

/- Helper lemmas about the sheet writer. -/

/-- One unfolding of the retry loop at positive fuel. -/
theorem connectLoop_succ (connOk : Nat → Bool) (attempt fuel : Nat) :
    connectLoop connOk attempt (fuel + 1) =
      if connOk attempt then (true, [(SheetOp.connectAttempt, true)])
      else if fuel = 0 then (false, [(SheetOp.connectAttempt, false)])
      else
        ((connectLoop connOk (attempt + 1) fuel).1,
          (SheetOp.connectAttempt, false) :: (SheetOp.sleep 5, true) ::
            (connectLoop connOk (attempt + 1) fuel).2) := rfl

/-- Closed form of `_get_sheet_client` with `max_retries = 3`. -/
theorem get_client_eq (connOk : Nat → Bool) :
    get_sheet_client connOk =
      if connOk 0 then (true, [(SheetOp.connectAttempt, true)])
      else if connOk 1 then
        (true, [(SheetOp.connectAttempt, false), (SheetOp.sleep 5, true),
                (SheetOp.connectAttempt, true)])
      else if connOk 2 then
        (true, [(SheetOp.connectAttempt, false), (SheetOp.sleep 5, true),
                (SheetOp.connectAttempt, false), (SheetOp.sleep 5, true),
                (SheetOp.connectAttempt, true)])
      else
        (false, [(SheetOp.connectAttempt, false), (SheetOp.sleep 5, true),
                 (SheetOp.connectAttempt, false), (SheetOp.sleep 5, true),
                 (SheetOp.connectAttempt, false)]) := by
  unfold get_sheet_client
  rw [show (3 : Nat) = 2 + 1 from rfl, connectLoop_succ]
  by_cases h0 : connOk 0
  · simp [h0]
  · simp only [h0, if_false, Bool.false_eq_true]
    rw [show (2 : Nat) = 1 + 1 from rfl, connectLoop_succ]
    by_cases h1 : connOk 1
    · simp [h1]
    · simp only [h1, if_false, Bool.false_eq_true]
      rw [show (1 : Nat) = 0 + 1 from rfl, connectLoop_succ]
      by_cases h2 : connOk 2
      · simp [h2]
      · simp [h2]

/-- Closed form of the append phase when `append_rows` succeeds. -/
theorem appendPhase_ok (env : SheetEnv) (sheet : List (List String))
    (kept : List Job) (ops : List (SheetOp × Bool)) (ha : env.appendOk = true) :
    appendPhase env sheet kept ops =
      ⟨SaveOutcome.Written kept.length, sheet ++ kept.map appendedRow,
        ops ++ appendOpsTail env kept,
        env.formattingAvailable && !env.checkboxOk⟩ := by
  unfold appendPhase appendOpsTail
  by_cases hf : env.formattingAvailable
  · by_cases hc : env.checkboxOk <;> simp [ha, hf, hc]
  · simp [ha, hf]

/-- Closed form of the header branch when header write and header
formatting succeed. -/
theorem headerPhase_ok (env : SheetEnv) (sheet : List (List String))
    (jobs : List Job) (ops : List (SheetOp × Bool))
    (hw : env.headerWriteOk = true) (hf : env.headerFormatOk = true) :
    headerPhase env sheet jobs ops =
      appendPhase env (sheet ++ [headerRow]) jobs (ops ++ headerOpsTail env) := by
  unfold headerPhase headerOpsTail
  by_cases hfa : env.formattingAvailable <;> simp [hw, hf, hfa]

/-- Case analysis of a `save_to_sheet` run whose connect, read, header
and append calls all succeed: either everything incoming is a duplicate
(`Deduplicated`, nothing written), or the survivors are appended after
dedup, or the sheet was (at most) a single row and header plus all rows
are appended with no dedup. -/
theorem save_char (env : SheetEnv) (sheet : List (List String)) (jobs : List Job)
    (cops : List (SheetOp × Bool))
    (hne : jobs ≠ [])
    (hc : get_sheet_client env.connOk = (true, cops))
    (hr : env.readOk = true) (hw : env.headerWriteOk = true)
    (hf : env.headerFormatOk = true) (ha : env.appendOk = true) :
    (1 < sheet.length ∧ dedupKept sheet jobs = [] ∧
       save_to_sheet env sheet jobs =
         ⟨SaveOutcome.Deduplicated, sheet, cops ++ [(SheetOp.readAll, true)], false⟩) ∨
    (1 < sheet.length ∧ dedupKept sheet jobs ≠ [] ∧
       save_to_sheet env sheet jobs =
         ⟨SaveOutcome.Written (dedupKept sheet jobs).length,
          sheet ++ (dedupKept sheet jobs).map appendedRow,
          (cops ++ [(SheetOp.readAll, true)]) ++ appendOpsTail env (dedupKept sheet jobs),
          env.formattingAvailable && !env.checkboxOk⟩) ∨
    (sheet.length ≤ 1 ∧
       save_to_sheet env sheet jobs =
         ⟨SaveOutcome.Written jobs.length,
          (sheet ++ [headerRow]) ++ jobs.map appendedRow,
          ((cops ++ [(SheetOp.readAll, true)]) ++ headerOpsTail env) ++ appendOpsTail env jobs,
          env.formattingAvailable && !env.checkboxOk⟩) := by
  have hje : jobs.isEmpty = false := by
    cases jobs with
    | nil => exact absurd rfl hne
    | cons a l => rfl
  unfold save_to_sheet
  rw [hc]
  simp only [hje, hr, Bool.false_eq_true, if_false, Bool.true_eq_false]
  by_cases hs : 1 < sheet.length
  · by_cases hd : dedupKept sheet jobs = []
    · left
      refine ⟨hs, hd, ?_⟩
      simp [afterRead, hs, hd]
    · right; left
      refine ⟨hs, hd, ?_⟩
      have hdne : (dedupKept sheet jobs).isEmpty = false := by
        cases hk : dedupKept sheet jobs with
        | nil => exact absurd hk hd
        | cons a l => rfl
      simp [afterRead, hs, hdne, appendPhase_ok env sheet _ _ ha]
  · right; right
    refine ⟨Nat.le_of_not_lt hs, ?_⟩
    simp [afterRead, hs, headerPhase_ok env sheet jobs _ hw hf,
      appendPhase_ok env _ _ _ ha]

/-- Splitting the lookup set over an appended suffix, as long as the
original sheet is nonempty (so the header skip stays inside it). -/
theorem existingLinks_append (pre suf : List (List String)) (hpre : pre ≠ []) :
    existingLinks (pre ++ suf) = existingLinks pre ++ suf.filterMap linkOfRow := by
  unfold existingLinks
  rw [List.drop_append_of_le_length (List.length_pos.mpr hpre), List.filterMap_append]

/-- The appended form of a listing exposes its (stringified) apply link
at index 5. -/
theorem linkOfRow_appendedRow (j : Job) :
    linkOfRow (appendedRow j) = some (cellToStr j.apply_link) := rfl

/-- Every listing appended in a batch is in the lookup set of the
resulting sheet (the original sheet being nonempty). -/
theorem mem_existingLinks_of_appended (pre : List (List String)) (ks : List Job)
    (j : Job) (hj : j ∈ ks) (hpre : pre ≠ []) :
    cellToStr j.apply_link ∈ existingLinks (pre ++ ks.map appendedRow) := by
  rw [existingLinks_append pre _ hpre]
  exact List.mem_append_right _
    (List.mem_filterMap.mpr ⟨appendedRow j, List.mem_map_of_mem _ hj,
      linkOfRow_appendedRow j⟩)

/-- Appending rows never removes links from the lookup set. -/
theorem mem_existingLinks_mono (pre suf : List (List String)) (x : String)
    (hx : x ∈ existingLinks pre) : x ∈ existingLinks (pre ++ suf) := by
  cases pre with
  | nil => simp [existingLinks] at hx
  | cons p ps =>
    rw [existingLinks_append _ _ (by simp)]
    exact List.mem_append_left _ hx

/-- Membership in the surviving batch. -/
theorem mem_dedupKept (sheet : List (List String)) (jobs : List Job) (j : Job) :
    j ∈ dedupKept sheet jobs ↔
      j ∈ jobs ∧ cellToStr j.apply_link ∉ existingLinks sheet := by
  simp [dedupKept, List.mem_filter]

/-- If every incoming link is already in the lookup set, the duplicate
check drops everything. -/
theorem dedupKept_eq_nil (sheet : List (List String)) (jobs : List Job)
    (h : ∀ j ∈ jobs, cellToStr j.apply_link ∈ existingLinks sheet) :
    dedupKept sheet jobs = [] := by
  unfold dedupKept
  rw [List.filter_eq_nil_iff]
  intro j hj
  simp [h j hj]

/-- C1: after one successful `save_to_sheet` run over listing set
`jobs` that ended in `Written n`, every listing's (stringified) apply
link is in the resulting sheet's lookup set, and a second run with the
same listing set drops all of them and returns `Deduplicated` — the
sheet is unchanged and the only operations performed are the connect
and the read (no append of any kind). -/
theorem C1_dedup_idempotent (env1 env2 : SheetEnv) (sheet : List (List String))
    (jobs : List Job) (n : Nat)
    (h1 : envCoreOk env1) (h2 : envCoreOk env2) (hne : jobs ≠ [])
    (hW : (save_to_sheet env1 sheet jobs).outcome = SaveOutcome.Written n) :
    (∀ j ∈ jobs,
       cellToStr j.apply_link ∈ existingLinks (save_to_sheet env1 sheet jobs).sheet) ∧
    save_to_sheet env2 (save_to_sheet env1 sheet jobs).sheet jobs =
      ⟨SaveOutcome.Deduplicated, (save_to_sheet env1 sheet jobs).sheet,
        [(SheetOp.connectAttempt, true), (SheetOp.readAll, true)], false⟩ := by
  obtain ⟨hc1, hr1, hw1, hf1, ha1⟩ := h1
  obtain ⟨hc2, hr2, hw2, hf2, ha2⟩ := h2
  have hcl1 : get_sheet_client env1.connOk = (true, [(SheetOp.connectAttempt, true)]) := by
    rw [get_client_eq]
    simp [hc1]
  have hcl2 : get_sheet_client env2.connOk = (true, [(SheetOp.connectAttempt, true)]) := by
    rw [get_client_eq]
    simp [hc2]
  have hrun2 : ∀ hmem : (∀ j ∈ jobs,
      cellToStr j.apply_link ∈ existingLinks (save_to_sheet env1 sheet jobs).sheet),
      1 < ((save_to_sheet env1 sheet jobs).sheet).length →
      save_to_sheet env2 (save_to_sheet env1 sheet jobs).sheet jobs =
        ⟨SaveOutcome.Deduplicated, (save_to_sheet env1 sheet jobs).sheet,
          [(SheetOp.connectAttempt, true), (SheetOp.readAll, true)], false⟩ := by
    intro hmem hlen
    have hd2 : dedupKept (save_to_sheet env1 sheet jobs).sheet jobs = [] :=
      dedupKept_eq_nil _ _ hmem
    rcases save_char env2 (save_to_sheet env1 sheet jobs).sheet jobs _ hne hcl2 hr2 hw2 hf2 ha2 with
      ⟨_, _, heq2⟩ | ⟨_, hd2x, _⟩ | ⟨hs2, _⟩
    · simpa using heq2
    · exact absurd hd2 hd2x
    · exact absurd hlen (Nat.not_lt.mpr hs2)
  rcases save_char env1 sheet jobs _ hne hcl1 hr1 hw1 hf1 ha1 with
    ⟨hs, hd, heq⟩ | ⟨hs, hd, heq⟩ | ⟨hs, heq⟩
  · rw [heq] at hW
    simp at hW
  · have hsheet1 : (save_to_sheet env1 sheet jobs).sheet =
        sheet ++ (dedupKept sheet jobs).map appendedRow := by
      rw [heq]
    have hpre : sheet ≠ [] := by
      intro hnil
      rw [hnil] at hs
      simp at hs
    have hmem : ∀ j ∈ jobs,
        cellToStr j.apply_link ∈ existingLinks (save_to_sheet env1 sheet jobs).sheet := by
      intro j hj
      rw [hsheet1]
      by_cases hin : cellToStr j.apply_link ∈ existingLinks sheet
      · exact mem_existingLinks_mono _ _ _ hin
      · exact mem_existingLinks_of_appended sheet _ j
          ((mem_dedupKept sheet jobs j).mpr ⟨hj, hin⟩) hpre
    have hlen : 1 < ((save_to_sheet env1 sheet jobs).sheet).length := by
      rw [hsheet1, List.length_append]
      omega
    exact ⟨hmem, hrun2 hmem hlen⟩
  · have hsheet1 : (save_to_sheet env1 sheet jobs).sheet =
        (sheet ++ [headerRow]) ++ jobs.map appendedRow := by
      rw [heq]
    have hmem : ∀ j ∈ jobs,
        cellToStr j.apply_link ∈ existingLinks (save_to_sheet env1 sheet jobs).sheet := by
      intro j hj
      rw [hsheet1]
      exact mem_existingLinks_of_appended (sheet ++ [headerRow]) _ j hj (by simp)
    have hjlen : 0 < jobs.length := List.length_pos.mpr hne
    have hlen : 1 < ((save_to_sheet env1 sheet jobs).sheet).length := by
      rw [hsheet1, List.length_append, List.length_append]
      simp only [List.length_map, List.length_singleton]
      omega
    exact ⟨hmem, hrun2 hmem hlen⟩

/-- Witness for C1: one fresh listing written to an empty sheet, then
the identical run deduplicates everything and leaves the sheet as it
was. -/
theorem C1_witness :
    save_to_sheet envW (save_to_sheet envW [] [jobW]).sheet [jobW] =
      ⟨SaveOutcome.Deduplicated, (save_to_sheet envW [] [jobW]).sheet,
        [(SheetOp.connectAttempt, true), (SheetOp.readAll, true)], false⟩ :=
  (C1_dedup_idempotent envW envW [] [jobW] 1 ⟨rfl, rfl, rfl, rfl, rfl⟩
    ⟨rfl, rfl, rfl, rfl, rfl⟩ (by decide) (by decide)).2

/-- Header-append detection distributes over concatenation. -/
theorem hasHeaderRowOp_append (a b : List (SheetOp × Bool)) :
    hasHeaderRowOp (a ++ b) = (hasHeaderRowOp a || hasHeaderRowOp b) :=
  List.any_append

/-- The connect loop records only connect attempts and sleeps. -/
theorem connect_no_header (connOk : Nat → Bool) :
    hasHeaderRowOp (get_sheet_client connOk).2 = false := by
  rw [get_client_eq]
  by_cases h0 : connOk 0 <;> by_cases h1 : connOk 1 <;> by_cases h2 : connOk 2 <;>
    simp [h0, h1, h2] <;> decide

/-- The append phase adds no header-row append. -/
theorem appendPhase_header_ops (env : SheetEnv) (sheet : List (List String))
    (kept : List Job) (ops : List (SheetOp × Bool)) :
    hasHeaderRowOp (appendPhase env sheet kept ops).ops = hasHeaderRowOp ops := by
  unfold appendPhase
  by_cases ha : env.appendOk = false
  · simp [ha, hasHeaderRowOp_append, hasHeaderRowOp]
  · by_cases hf : env.formattingAvailable <;> by_cases hc : env.checkboxOk <;>
      simp [ha, hf, hc, hasHeaderRowOp_append, hasHeaderRowOp]

/-- C4 counterexample: the claim says a sheet that already has a header
row never receives another one; but the code's emptiness test is
`len(existing_data) > 1`, so on a header-only sheet it appends a second
header row (and then the data rows, with no dedup). -/
theorem C4_counterexample :
    (save_to_sheet envW [headerRow] [jobW]).sheet =
      [headerRow, headerRow, appendedRow jobW] ∧
    hasHeaderRowOp (save_to_sheet envW [headerRow] [jobW]).ops = true := by
  refine ⟨by decide, by decide⟩

/-- C4 (amended): the header is written exactly when the sheet has at
most one row — a header-only sheet therefore receives a duplicate
header — and when the sheet has at least two rows no header is ever
appended (whatever the environment does) and the lookup set is built
from the rows after the first, taking index 5 of every row longer than
5 cells. -/
theorem C4_header_condition :
    (∀ (env : SheetEnv) (sheet : List (List String)) (jobs : List Job),
       1 < sheet.length →
       hasHeaderRowOp (save_to_sheet env sheet jobs).ops = false) ∧
    (∀ (env : SheetEnv) (sheet : List (List String)) (jobs : List Job),
       envCoreOk env → jobs ≠ [] → sheet.length ≤ 1 →
       (save_to_sheet env sheet jobs).sheet =
         (sheet ++ [headerRow]) ++ jobs.map appendedRow) ∧
    (∀ (env : SheetEnv) (sheet : List (List String)) (jobs : List Job),
       envCoreOk env → jobs ≠ [] → 1 < sheet.length →
       (save_to_sheet env sheet jobs).sheet =
         sheet ++ (dedupKept sheet jobs).map appendedRow ∧
       (dedupKept sheet jobs = [] →
          (save_to_sheet env sheet jobs).outcome = SaveOutcome.Deduplicated)) := by
  refine ⟨?_, ?_, ?_⟩
  · intro env sheet jobs hs
    have hch : hasHeaderRowOp (get_sheet_client env.connOk).2 = false :=
      connect_no_header env.connOk
    unfold save_to_sheet
    by_cases hje : jobs.isEmpty
    · simp [hje, hasHeaderRowOp]
    · simp only [hje, Bool.false_eq_true, if_false]
      cases hcn : (get_sheet_client env.connOk).1
      · simp [hcn, hch]
      · simp only [hcn, Bool.true_eq_false, if_false]
        by_cases hr : env.readOk = false
        · rw [if_pos hr]
          show hasHeaderRowOp ((get_sheet_client env.connOk).2 ++
            [(SheetOp.readAll, false)]) = false
          rw [hasHeaderRowOp_append, hch]
          decide
        · simp only [hr, if_false]
          have hops : hasHeaderRowOp ((get_sheet_client env.connOk).2 ++
              [(SheetOp.readAll, true)]) = false := by
            rw [hasHeaderRowOp_append, hch]
            decide
          unfold afterRead
          simp only [hs, if_true]
          by_cases hd : (dedupKept sheet jobs).isEmpty
          · simp [hd, hops]
          · simp [hd, appendPhase_header_ops, hops]
  · intro env sheet jobs hok hne hs
    obtain ⟨hc, hr, hw, hf, ha⟩ := hok
    have hcl : get_sheet_client env.connOk = (true, [(SheetOp.connectAttempt, true)]) := by
      rw [get_client_eq]
      simp [hc]
    rcases save_char env sheet jobs _ hne hcl hr hw hf ha with
      ⟨hs1, _, _⟩ | ⟨hs1, _, _⟩ | ⟨_, heq⟩
    · exact absurd hs1 (Nat.not_lt.mpr hs)
    · exact absurd hs1 (Nat.not_lt.mpr hs)
    · rw [heq]
  · intro env sheet jobs hok hne hs
    obtain ⟨hc, hr, hw, hf, ha⟩ := hok
    have hcl : get_sheet_client env.connOk = (true, [(SheetOp.connectAttempt, true)]) := by
      rw [get_client_eq]
      simp [hc]
    rcases save_char env sheet jobs _ hne hcl hr hw hf ha with
      ⟨_, hd, heq⟩ | ⟨_, hd, heq⟩ | ⟨hs1, _⟩
    · constructor
      · rw [heq, hd]
        simp
      · intro _
        rw [heq]
    · constructor
      · rw [heq]
      · intro hdx
        exact absurd hdx hd
    · exact absurd hs (Nat.not_lt.mpr hs1)

/-- Witness for C4: the header-initialization conjunct at an empty
sheet, and the no-header conjunct at a two-row sheet. -/
theorem C4_witness :
    (save_to_sheet envW [] [jobW]).sheet =
      ([] ++ [headerRow]) ++ [jobW].map appendedRow ∧
    hasHeaderRowOp (save_to_sheet envW [headerRow, appendedRow jobW] [job7]).ops = false :=
  ⟨C4_header_condition.2.1 envW [] [jobW] ⟨rfl, rfl, rfl, rfl, rfl⟩ (by decide) (by decide),
   C4_header_condition.1 envW [headerRow, appendedRow jobW] [job7] (by decide)⟩

/-- Connect-attempt counting distributes over concatenation. -/
theorem countConnects_append (a b : List (SheetOp × Bool)) :
    countConnects (a ++ b) = countConnects a + countConnects b := by
  simp [countConnects, List.filter_append]

/-- The append phase performs no connect attempts. -/
theorem appendOpsTail_connects (env : SheetEnv) (kept : List Job) :
    countConnects (appendOpsTail env kept) = 0 := by
  unfold appendOpsTail
  by_cases hf : env.formattingAvailable <;> simp [hf, countConnects]

/-- The header branch performs no connect attempts. -/
theorem headerOpsTail_connects (env : SheetEnv) :
    countConnects (headerOpsTail env) = 0 := by
  unfold headerOpsTail
  by_cases hf : env.formattingAvailable <;> simp [hf, countConnects]

/-- C5: the connect step makes at most 3 attempts with a fixed 5-second
sleep between them.  A success at attempt 1, 2 or 3 stops the loop
immediately with exactly that many attempts; after 3 failures
`save_to_sheet` returns `ConnectFailed` with the sheet untouched,
exactly the five recorded connect/sleep operations, and in particular
no read and no append; and when the third attempt succeeds and the rest
of the run is healthy, the run completes with `Written n` after exactly
3 connect attempts. -/
theorem C5_connect_retry :
    (∀ connOk : Nat → Bool, connOk 0 = true →
       get_sheet_client connOk = (true, [(SheetOp.connectAttempt, true)])) ∧
    (∀ connOk : Nat → Bool, connOk 0 = false → connOk 1 = true →
       get_sheet_client connOk =
         (true, [(SheetOp.connectAttempt, false), (SheetOp.sleep 5, true),
                 (SheetOp.connectAttempt, true)])) ∧
    (∀ connOk : Nat → Bool, connOk 0 = false → connOk 1 = false → connOk 2 = true →
       get_sheet_client connOk =
         (true, [(SheetOp.connectAttempt, false), (SheetOp.sleep 5, true),
                 (SheetOp.connectAttempt, false), (SheetOp.sleep 5, true),
                 (SheetOp.connectAttempt, true)])) ∧
    (∀ (env : SheetEnv) (sheet : List (List String)) (jobs : List Job),
       env.connOk 0 = false → env.connOk 1 = false → env.connOk 2 = false →
       jobs ≠ [] →
       save_to_sheet env sheet jobs =
         ⟨SaveOutcome.ConnectFailed, sheet,
          [(SheetOp.connectAttempt, false), (SheetOp.sleep 5, true),
           (SheetOp.connectAttempt, false), (SheetOp.sleep 5, true),
           (SheetOp.connectAttempt, false)], false⟩ ∧
       hasReadOp (save_to_sheet env sheet jobs).ops = false ∧
       hasAppendOp (save_to_sheet env sheet jobs).ops = false) ∧
    (∀ (env : SheetEnv) (sheet : List (List String)) (jobs : List Job),
       env.connOk 0 = false → env.connOk 1 = false → env.connOk 2 = true →
       env.readOk = true → env.headerWriteOk = true → env.headerFormatOk = true →
       env.appendOk = true → jobs ≠ [] →
       (sheet.length ≤ 1 ∨ dedupKept sheet jobs ≠ []) →
       (∃ n, (save_to_sheet env sheet jobs).outcome = SaveOutcome.Written n) ∧
       countConnects (save_to_sheet env sheet jobs).ops = 3) := by
  refine ⟨?_, ?_, ?_, ?_, ?_⟩
  · intro connOk h0
    rw [get_client_eq]
    simp [h0]
  · intro connOk h0 h1
    rw [get_client_eq]
    simp [h0, h1]
  · intro connOk h0 h1 h2
    rw [get_client_eq]
    simp [h0, h1, h2]
  · intro env sheet jobs h0 h1 h2 hne
    have hje : jobs.isEmpty = false := by
      cases jobs with
      | nil => exact absurd rfl hne
      | cons a l => rfl
    have hcl : get_sheet_client env.connOk =
        (false, [(SheetOp.connectAttempt, false), (SheetOp.sleep 5, true),
                 (SheetOp.connectAttempt, false), (SheetOp.sleep 5, true),
                 (SheetOp.connectAttempt, false)]) := by
      rw [get_client_eq]
      simp [h0, h1, h2]
    have heq : save_to_sheet env sheet jobs =
        ⟨SaveOutcome.ConnectFailed, sheet,
         [(SheetOp.connectAttempt, false), (SheetOp.sleep 5, true),
          (SheetOp.connectAttempt, false), (SheetOp.sleep 5, true),
          (SheetOp.connectAttempt, false)], false⟩ := by
      unfold save_to_sheet
      rw [hcl]
      simp [hje]
    refine ⟨heq, ?_, ?_⟩ <;> rw [heq] <;> rfl
  · intro env sheet jobs h0 h1 h2 hr hw hf ha hne hbranch
    have hcl : get_sheet_client env.connOk =
        (true, [(SheetOp.connectAttempt, false), (SheetOp.sleep 5, true),
                (SheetOp.connectAttempt, false), (SheetOp.sleep 5, true),
                (SheetOp.connectAttempt, true)]) := by
      rw [get_client_eq]
      simp [h0, h1, h2]
    rcases save_char env sheet jobs _ hne hcl hr hw hf ha with
      ⟨hs, hd, _⟩ | ⟨_, _, heq⟩ | ⟨_, heq⟩
    · rcases hbranch with hb | hb
      · exact absurd hs (Nat.not_lt.mpr hb)
      · exact absurd hd hb
    · constructor
      · exact ⟨_, by rw [heq]⟩
      · rw [heq]
        show countConnects (_ ++ appendOpsTail env (dedupKept sheet jobs)) = 3
        rw [countConnects_append, appendOpsTail_connects]
        decide
    · constructor
      · exact ⟨_, by rw [heq]⟩
      · rw [heq]
        show countConnects ((_ ++ headerOpsTail env) ++ appendOpsTail env jobs) = 3
        rw [countConnects_append, countConnects_append, appendOpsTail_connects,
          headerOpsTail_connects]
        decide

/-- Witness for C5: the connect attempt fails twice then succeeds; one
fresh listing on an empty sheet ends in `Written` after exactly 3
attempts. -/
theorem C5_witness :
    (∃ n, (save_to_sheet envRetry [] [jobW]).outcome = SaveOutcome.Written n) ∧
    countConnects (save_to_sheet envRetry [] [jobW]).ops = 3 :=
  C5_connect_retry.2.2.2.2 envRetry [] [jobW] rfl rfl rfl rfl rfl rfl rfl
    (by decide) (Or.inl (by decide))

/-- C9: checkbox formatting is cosmetic.  The outcome and the stored
rows of `save_to_sheet` do not depend on whether the checkbox step
succeeds; and concretely, when `append_rows` succeeds and the checkbox
step then fails, the append phase still ends in `Written n` with the
rows appended (never rolled back) — the shared `except` handler only
logs (`appendErrorLogged`). -/
theorem C9_cosmetic_isolation :
    (∀ (e1 e2 : SheetEnv) (sheet : List (List String)) (jobs : List Job),
       agreeExceptCheckbox e1 e2 →
       (save_to_sheet e1 sheet jobs).outcome = (save_to_sheet e2 sheet jobs).outcome ∧
       (save_to_sheet e1 sheet jobs).sheet = (save_to_sheet e2 sheet jobs).sheet) ∧
    (∀ (env : SheetEnv) (sheet : List (List String)) (kept : List Job)
       (ops : List (SheetOp × Bool)),
       env.appendOk = true → env.formattingAvailable = true → env.checkboxOk = false →
       (appendPhase env sheet kept ops).outcome = SaveOutcome.Written kept.length ∧
       (appendPhase env sheet kept ops).sheet = sheet ++ kept.map appendedRow ∧
       (appendPhase env sheet kept ops).appendErrorLogged = true) := by
  constructor
  · intro e1 e2 sheet jobs hag
    obtain ⟨hcn, hr, hw, hfa, hhf, hap⟩ := hag
    have happ : ∀ (sh : List (List String)) (kept : List Job)
        (o1 o2 : List (SheetOp × Bool)),
        (appendPhase e1 sh kept o1).outcome = (appendPhase e2 sh kept o2).outcome ∧
        (appendPhase e1 sh kept o1).sheet = (appendPhase e2 sh kept o2).sheet := by
      intro sh kept o1 o2
      cases ha : e2.appendOk with
      | false =>
        have ha1 : e1.appendOk = false := by rw [hap, ha]
        simp [appendPhase, ha, ha1]
      | true =>
        have ha1 : e1.appendOk = true := by rw [hap, ha]
        cases hf : e2.formattingAvailable with
        | false =>
          have hf1 : e1.formattingAvailable = false := by rw [hfa, hf]
          simp [appendPhase, ha, ha1, hf, hf1]
        | true =>
          have hf1 : e1.formattingAvailable = true := by rw [hfa, hf]
          cases hc1 : e1.checkboxOk <;> cases hc2 : e2.checkboxOk <;>
            simp [appendPhase, ha, ha1, hf, hf1, hc1, hc2]
    have hhd : ∀ (o1 o2 : List (SheetOp × Bool)),
        (headerPhase e1 sheet jobs o1).outcome = (headerPhase e2 sheet jobs o2).outcome ∧
        (headerPhase e1 sheet jobs o1).sheet = (headerPhase e2 sheet jobs o2).sheet := by
      intro o1 o2
      cases hwx : e2.headerWriteOk with
      | false =>
        have hw1 : e1.headerWriteOk = false := by rw [hw, hwx]
        simp [headerPhase, hwx, hw1]
      | true =>
        have hw1 : e1.headerWriteOk = true := by rw [hw, hwx]
        cases hfx : e2.formattingAvailable with
        | false =>
          have hf1 : e1.formattingAvailable = false := by rw [hfa, hfx]
          simp only [headerPhase, hwx, hw1, hfx, hf1, Bool.true_eq_false,
            if_false, Bool.false_eq_true, if_true]
          exact happ (sheet ++ [headerRow]) jobs _ _
        | true =>
          have hf1 : e1.formattingAvailable = true := by rw [hfa, hfx]
          cases hhfx : e2.headerFormatOk with
          | false =>
            have hhf1 : e1.headerFormatOk = false := by rw [hhf, hhfx]
            simp [headerPhase, hwx, hw1, hfx, hf1, hhfx, hhf1]
          | true =>
            have hhf1 : e1.headerFormatOk = true := by rw [hhf, hhfx]
            simp only [headerPhase, hwx, hw1, hfx, hf1, hhfx, hhf1,
              Bool.true_eq_false, if_false, if_true]
            exact happ (sheet ++ [headerRow]) jobs _ _
    have haft : ∀ (o1 o2 : List (SheetOp × Bool)),
        (afterRead e1 sheet jobs o1).outcome = (afterRead e2 sheet jobs o2).outcome ∧
        (afterRead e1 sheet jobs o1).sheet = (afterRead e2 sheet jobs o2).sheet := by
      intro o1 o2
      unfold afterRead
      by_cases hs : 1 < sheet.length
      · simp only [hs, if_true]
        by_cases hd : (dedupKept sheet jobs).isEmpty
        · simp [hd]
        · simp only [hd, Bool.false_eq_true, if_false]
          exact happ sheet (dedupKept sheet jobs) _ _
      · simp only [hs, if_false]
        exact hhd _ _
    unfold save_to_sheet
    rw [hcn]
    by_cases hje : jobs.isEmpty
    · simp [hje]
    · simp only [hje, Bool.false_eq_true, if_false]
      cases hgc : (get_sheet_client e2.connOk).1 with
      | false => simp [hgc]
      | true =>
        simp only [hgc, Bool.true_eq_false, if_false]
        cases hrx : e2.readOk with
        | false =>
          have hr1 : e1.readOk = false := by rw [hr, hrx]
          simp [hrx, hr1]
        | true =>
          have hr1 : e1.readOk = true := by rw [hr, hrx]
          simp only [hrx, hr1, Bool.true_eq_false, if_false]
          exact haft _ _
  · intro env sheet kept ops ha hf hc
    rw [appendPhase_ok env sheet kept ops ha]
    simp [hf, hc]

/-- Witness for C9: formatting available, append succeeds, checkbox
fails; the outcome is still `Written` with the row stored, and the
outcome and sheet agree with the checkbox-succeeding environment. -/
theorem C9_witness :
    (appendPhase envCbFail [headerRow] [jobW] []).outcome = SaveOutcome.Written 1 ∧
    (appendPhase envCbFail [headerRow] [jobW] []).sheet =
      [headerRow] ++ [jobW].map appendedRow ∧
    (save_to_sheet envCbFail [] [jobW]).outcome =
      (save_to_sheet envCbOk [] [jobW]).outcome :=
  ⟨(C9_cosmetic_isolation.2 envCbFail [headerRow] [jobW] [] rfl rfl rfl).1,
   (C9_cosmetic_isolation.2 envCbFail [headerRow] [jobW] [] rfl rfl rfl).2.1,
   (C9_cosmetic_isolation.1 envCbFail envCbOk [] [jobW]
      ⟨rfl, rfl, rfl, rfl, rfl, rfl⟩).1⟩

end JobSearch
